import Mathlib

/- Shallow embedding of the media-editor app's core logic.

   src/services/MetadataService.ts:
     parseMetadataFromFilename, extractYearFromDate, the title chain of
     createTrackWithMetadata, formatTrackInfo, getDetailedTrackInfo.
   src/services/AudioService.ts:
     subscribe / notifyListeners, updateState, loadTrack, play, pause, stop,
     seek, setVolume, the playback-status listener and the 500ms position
     interval.

   Strings are modelled as lists of characters; JS numbers as rationals. -/

/-- Character class of the whitespace escape in the source's regexes, which is
also the set removed by JS trim: ASCII whitespace plus the Unicode space
characters and the BOM. -/
def isJsSpace (c : Char) : Bool :=
  c == ' ' || c == '\t' || c == '\n' || c == '\r' || c == '\x0b' ||
  c == '\x0c' || c == '\u00a0' || c == '\u1680' ||
  (decide ('\u2000' ≤ c) && decide (c ≤ '\u200a')) ||
  c == '\u2028' || c == '\u2029' || c == '\u202f' || c == '\u205f' ||
  c == '\u3000' || c == '\ufeff'

/-- The extension-stripping replace in MetadataService.ts (lines 94 and 157):
the regex removes a final dot followed by one or more characters, none of
which is a dot or a slash.  When no such suffix exists the name is kept. -/
def stripExt (s : List Char) : List Char :=
  let r := s.reverse
  match r.dropWhile (fun c => !(c == '.' || c == '/')) with
  | '.' :: rest =>
    if (r.takeWhile (fun c => !(c == '.' || c == '/'))).isEmpty then s
    else rest.reverse
  | _ => s

/-- Splitting on the first occurrence of the three-character separator
(MetadataService.ts lines 101-107).  The source splits on every occurrence
and rejoins parts.slice(1) with the separator, which yields exactly the text
after the first occurrence; result: (text before, text after) or none when
the separator does not occur. -/
def splitFirstSep : List Char → Option (List Char × List Char)
  | [] => none
  | c :: cs =>
    if c == ' ' && cs.take 2 == ['-', ' '] then some ([], cs.drop 2)
    else
      match splitFirstSep cs with
      | some (a, b) => some (c :: a, b)
      | none => none

/-- JS String.prototype.trim. -/
def trimList (s : List Char) : List Char :=
  ((s.dropWhile isJsSpace).reverse.dropWhile isJsSpace).reverse

/-- The leading-track-number replace (MetadataService.ts line 110): a greedy
run of digits, an optional dot, then any whitespace, removed when the string
starts with at least one digit. -/
def stripLeadingNum (s : List Char) : List Char :=
  let ds := s.takeWhile Char.isDigit
  if ds.isEmpty then s
  else
    let rest := s.drop ds.length
    let rest2 :=
      match rest with
      | '.' :: r => r
      | _ => rest
    rest2.dropWhile isJsSpace

/-- The global underscore-to-space replace (MetadataService.ts line 113). -/
def underscoresToSpaces (s : List Char) : List Char :=
  s.map (fun c => if c == '_' then ' ' else c)

/-- Helper for the whitespace-run collapse: the flag records whether the
previous character belonged to a whitespace run already emitted as one
space. -/
def collapseWsAux : Bool → List Char → List Char
  | _, [] => []
  | prevWs, c :: cs =>
    if isJsSpace c then
      if prevWs then collapseWsAux true cs
      else ' ' :: collapseWsAux true cs
    else c :: collapseWsAux false cs

/-- The whitespace-collapsing replace (MetadataService.ts line 113): every
maximal whitespace run becomes a single space. -/
def collapseWs (s : List Char) : List Char :=
  collapseWsAux false s

/-- The cleanup chain the source applies to the raw title (MetadataService.ts
lines 110-113): strip the numeric prefix, underscores to spaces, collapse
whitespace runs, trim. -/
def cleanTitle (raw : List Char) : List Char :=
  trimList (collapseWs (underscoresToSpaces (stripLeadingNum raw)))

/-- The raw title before cleanup: the text after the first separator when
" - " occurs in the cleaned name, the whole cleaned name otherwise
(MetadataService.ts lines 96-107). -/
def rawTitleOf (cleanName : List Char) : List Char :=
  match splitFirstSep cleanName with
  | some (_, b) => b
  | none => cleanName

/-- The title field returned by parseMetadataFromFilename (line 116): the
cleaned-up title, or the whole extension-stripped name when the cleanup
produced the empty string (the JS truthiness fallback). -/
def parseTitle (cleanName : List Char) : List Char :=
  let t := cleanTitle (rawTitleOf cleanName)
  if t = [] then cleanName else t

/-- The artist field returned by parseMetadataFromFilename (lines 97-107):
the trimmed text before the first separator, or absent. -/
def parseArtist (cleanName : List Char) : Option (List Char) :=
  match splitFirstSep cleanName with
  | some (a, _) => some (trimList a)
  | none => none

/-- Result record of parseMetadataFromFilename; the source leaves all other
fields undefined, so only title and artist are carried. -/
structure MetadataResult where
  title : List Char
  artist : Option (List Char)
deriving DecidableEq

/-- parseMetadataFromFilename from MetadataService.ts (lines 92-125). -/
def parseMetadataFromFilename (filename : List Char) : MetadataResult :=
  { title := parseTitle (stripExt filename)
  , artist := parseArtist (stripExt filename) }

/-- JS truthiness disjunction on strings: an empty string falls through to
the right operand. -/
def jsOrStr (a b : List Char) : List Char :=
  if a = [] then b else a

/-- Title of the Track built by createTrackWithMetadata (line 157) in the
no-usable-tags case, where extractMetadata already fell back to
parseMetadataFromFilename on the same file name: metadata.title, else the
filename parse again, else the extension-stripped file name. -/
def createTrackTitle (fileName : List Char) : List Char :=
  jsOrStr (parseMetadataFromFilename fileName).title
    (jsOrStr (parseMetadataFromFilename fileName).title (stripExt fileName))

/-- Input of extractYearFromDate: a tag value that is a number or a string. -/
inductive DateVal where
  | num (n : Int)
  | str (s : List Char)

/-- The four-digit pattern match (MetadataService.ts line 83): the first
position at which four consecutive digit characters occur. -/
def firstFourDigits : List Char → Option (List Char)
  | [] => none
  | c :: cs =>
    match cs with
    | c2 :: c3 :: c4 :: _ =>
      if c.isDigit && c2.isDigit && c3.isDigit && c4.isDigit then
        some [c, c2, c3, c4]
      else firstFourDigits cs
    | _ => none

/-- parseInt applied to the matched digit characters. -/
def digitsToInt (ds : List Char) : Int :=
  ds.foldl (fun acc c => acc * 10 + Int.ofNat (c.toNat - 48)) 0

/-- extractYearFromDate from MetadataService.ts (lines 80-87). -/
def extractYearFromDate : DateVal → Option Int
  | .num n => some n
  | .str s => (firstFourDigits s).map digitsToInt

/-- A stem (or title) contains at least one non-whitespace character. -/
def hasNonWs (l : List Char) : Prop :=
  ∃ c ∈ l, isJsSpace c = false

/-- A title is non-empty and not whitespace-only. -/
def titleOk (t : List Char) : Prop :=
  t ≠ [] ∧ ∃ c ∈ t, isJsSpace c = false

instance (l : List Char) : Decidable (hasNonWs l) := by
  unfold hasNonWs
  infer_instance

instance (t : List Char) : Decidable (titleOk t) := by
  unfold titleOk
  infer_instance

lemma exists_not_of_trimList (l : List Char) (h : trimList l ≠ []) :
    ∃ c ∈ trimList l, isJsSpace c = false := by
  unfold trimList at h ⊢
  have h2 : (l.dropWhile isJsSpace).reverse.dropWhile isJsSpace ≠ [] := by
    intro he
    rw [he] at h
    simp at h
  refine ⟨((l.dropWhile isJsSpace).reverse.dropWhile isJsSpace).head h2, ?_, ?_⟩
  · exact List.mem_reverse.mpr (List.head_mem h2)
  · exact List.head_dropWhile_not isJsSpace _ h2

lemma cleanTitle_ne_nil_exists (raw : List Char)
    (h : cleanTitle raw ≠ []) : ∃ c ∈ cleanTitle raw, isJsSpace c = false := by
  unfold cleanTitle at h ⊢
  exact exists_not_of_trimList _ h

lemma createTrackTitle_eq_parseTitle (fn : List Char)
    (h : parseTitle (stripExt fn) ≠ []) :
    createTrackTitle fn = parseTitle (stripExt fn) := by
  unfold createTrackTitle parseMetadataFromFilename jsOrStr
  simp [h]

/-- C1 (counterexample): on the degenerate filename ".mp3" the extension
strip leaves the empty stem, the cleanup yields the empty string, and every
fallback in the chain — including the final one in createTrackWithMetadata —
is the empty string as well, so the produced title is empty, contradicting
the claim that the title is never empty. -/
theorem claim1_counterexample :
    (parseMetadataFromFilename (".mp3".data)).title = []
    ∧ createTrackTitle (".mp3".data) = [] := by
  decide

/-- C1 (amended): the title produced by filename normalization falls back to
the cleaned (extension-stripped) file name whenever the cleanup chain yields
the empty string, and it is non-empty and not whitespace-only provided the
cleaned file name contains at least one non-whitespace character; filenames
whose stem is empty or whitespace-only (such as ".mp3") yield that
degenerate stem as the title. -/
theorem claim1_amended : ∀ fn : List Char,
    (cleanTitle (rawTitleOf (stripExt fn)) = [] →
      parseTitle (stripExt fn) = stripExt fn)
    ∧ (hasNonWs (stripExt fn) →
        titleOk (parseTitle (stripExt fn)) ∧ titleOk (createTrackTitle fn)) := by
  intro fn
  constructor
  · intro h
    simp [parseTitle, h]
  · rintro ⟨c, hc, hcw⟩
    have hok : titleOk (parseTitle (stripExt fn)) := by
      by_cases h : cleanTitle (rawTitleOf (stripExt fn)) = []
      · have hpt : parseTitle (stripExt fn) = stripExt fn := by
          simp [parseTitle, h]
        rw [hpt]
        exact ⟨List.ne_nil_of_mem hc, ⟨c, hc, hcw⟩⟩
      · have hpt : parseTitle (stripExt fn) =
            cleanTitle (rawTitleOf (stripExt fn)) := by
          simp [parseTitle, h]
        rw [hpt]
        exact ⟨h, cleanTitle_ne_nil_exists _ h⟩
    refine ⟨hok, ?_⟩
    rw [createTrackTitle_eq_parseTitle fn hok.1]
    exact hok

/-- C1 (witness): the underscore-only filename "___.mp3" — one of the
degenerate inputs the claim names — has a non-whitespace stem, so the
amended claim applies and its title "___" is non-empty and not
whitespace-only; the first conjunct fires because the cleanup of "___"
collapses to the empty string. -/
theorem claim1_witness :
    (cleanTitle (rawTitleOf (stripExt ("___.mp3".data))) = []
      → parseTitle (stripExt ("___.mp3".data)) = stripExt ("___.mp3".data))
    ∧ hasNonWs (stripExt ("___.mp3".data))
    ∧ titleOk (parseTitle (stripExt ("___.mp3".data)))
    ∧ titleOk (createTrackTitle ("___.mp3".data)) :=
  ⟨(claim1_amended ("___.mp3".data)).1, by decide,
   ((claim1_amended ("___.mp3".data)).2 (by decide)).1,
   ((claim1_amended ("___.mp3".data)).2 (by decide)).2⟩

/-- C4 (counterexample): for "Artist - 01.mp3" the text after the first
separator is "01", whose cleanup (numeric prefix strip, underscore
replacement, whitespace collapse, trim) is the empty string; the source then
falls back to the whole extension-stripped name "Artist - 01", so the title
is not the one the claim derives from the part after the separator. -/
theorem claim4_counterexample :
    splitFirstSep (stripExt ("Artist - 01.mp3".data)) =
      some ("Artist".data, "01".data)
    ∧ cleanTitle ("01".data) = []
    ∧ parseTitle (stripExt ("Artist - 01.mp3".data)) = "Artist - 01".data := by
  decide

/-- C4 (amended): with no tag data, when the extension-stripped name contains
" - " the parser splits at the first occurrence only, the artist is the
trimmed left part, and the title is the right part after numeric-prefix
stripping, underscore replacement, whitespace collapsing and trimming —
except that an empty cleanup result falls back to the whole
extension-stripped name; without " - " the artist is absent and the title is
the same cleanup of the whole stem, with the same empty-result fallback. -/
theorem claim4_amended :
    (∀ (fn a b : List Char), splitFirstSep (stripExt fn) = some (a, b) →
      parseArtist (stripExt fn) = some (trimList a)
      ∧ parseTitle (stripExt fn) =
          (if cleanTitle b = [] then stripExt fn else cleanTitle b))
    ∧ (∀ fn : List Char, splitFirstSep (stripExt fn) = none →
      parseArtist (stripExt fn) = none
      ∧ parseTitle (stripExt fn) =
          (if cleanTitle (stripExt fn) = [] then stripExt fn
           else cleanTitle (stripExt fn))) := by
  constructor
  · intro fn a b h
    constructor
    · simp [parseArtist, h]
    · simp [parseTitle, rawTitleOf, h]
  · intro fn h
    constructor
    · simp [parseArtist, h]
    · simp [parseTitle, rawTitleOf, h]

/-- C4 (witness): "Artist - My_Song.mp3" splits at the separator into artist
"Artist" and title "My Song"; "01 Track.mp3" has no separator, so the artist
is absent and the cleaned stem "Track" becomes the title. -/
theorem claim4_witness :
    parseArtist (stripExt ("Artist - My_Song.mp3".data)) = some ("Artist".data)
    ∧ parseTitle (stripExt ("Artist - My_Song.mp3".data)) = "My Song".data
    ∧ parseArtist (stripExt ("01 Track.mp3".data)) = none
    ∧ parseTitle (stripExt ("01 Track.mp3".data)) = "Track".data := by
  have h1 : splitFirstSep (stripExt ("Artist - My_Song.mp3".data)) =
      some ("Artist".data, "My_Song".data) := by decide
  have h2 : splitFirstSep (stripExt ("01 Track.mp3".data)) = none := by decide
  have r1 := claim4_amended.1 ("Artist - My_Song.mp3".data) _ _ h1
  have r2 := claim4_amended.2 ("01 Track.mp3".data) h2
  refine ⟨by simpa using r1.1, ?_, r2.1, ?_⟩
  · rw [r1.2]
    decide
  · rw [r2.2]
    decide

/-- C5: year extraction is total, passes a numeric tag value through
unchanged, and on strings extracts the first four consecutive digits as the
regex in the source does: "2024-05-01" gives 2024, the number 2024 gives
2024, and a string without four consecutive digits gives absent. -/
theorem claim5_year_extraction :
    (∀ n : Int, extractYearFromDate (DateVal.num n) = some n)
    ∧ extractYearFromDate (DateVal.str ("2024-05-01".data)) = some 2024
    ∧ extractYearFromDate (DateVal.num 2024) = some 2024
    ∧ extractYearFromDate (DateVal.str ("no digits".data)) = none := by
  refine ⟨fun n => rfl, by decide, rfl, by decide⟩

/-- Track from AudioService.ts (lines 10-23); question-marked fields are
options, JS numbers are rationals except the integer-like year and
track/disk numbers. -/
structure Track where
  id : String
  title : String
  artist : Option String
  duration : Option Rat
  uri : String
  fileName : String
  album : Option String
  albumArtist : Option String
  genre : Option String
  year : Option Int
  trackNumber : Option Int
  diskNumber : Option Int
deriving DecidableEq

/-- The parts array built by formatTrackInfo (MetadataService.ts lines
172-188) through the same sequence of conditional pushes as the source; the
JS truthiness tests make the empty string and the zero year take the skip
branch. -/
def formatParts (t : Track) : List String :=
  let parts : List String := []
  let parts :=
    match t.artist with
    | some a => if a ≠ "" ∧ a ≠ "Unknown Artist" then parts ++ [a] else parts
    | none => parts
  let parts :=
    match t.album with
    | some al => if al ≠ "" ∧ al ≠ "Unknown Album" then parts ++ [al] else parts
    | none => parts
  let parts :=
    match t.year with
    | some y => if y ≠ 0 then parts ++ [toString y] else parts
    | none => parts
  match t.genre with
  | some g => if g ≠ "" then parts ++ [g] else parts
  | none => parts

/-- formatTrackInfo from MetadataService.ts (lines 171-191): the joined
parts, or the placeholder when the array stayed empty. -/
def formatTrackInfo (t : Track) : String :=
  if 0 < (formatParts t).length then
    String.intercalate " â€¢ " (formatParts t)
  else "No metadata available"

/-- getDetailedTrackInfo from MetadataService.ts (lines 196-201). -/
def getDetailedTrackInfo (t : Track) : String × String :=
  (t.title, formatTrackInfo t)

/-- Modelled from the claim text of C9: the parts that qualify in the fixed
order, where presence alone qualifies year and genre and only the two
Unknown placeholders disqualify artist and album. -/
def describeClaimParts (t : Track) : List String :=
  List.filterMap id
    [ t.artist.bind (fun a => if a = "Unknown Artist" then none else some a)
    , t.album.bind (fun al => if al = "Unknown Album" then none else some al)
    , t.year.map (fun y => toString y)
    , t.genre ]

/-- Modelled from the claim text of C9: primary is the title, secondary the
joined qualifying parts or the no-metadata placeholder. -/
def describeClaim (t : Track) : String × String :=
  ( t.title
  , if describeClaimParts t = [] then "No metadata available"
    else String.intercalate " â€¢ " (describeClaimParts t) )

/-- The amended qualification: an empty artist, album or genre and a zero
year do not qualify (the JS truthiness checks in the source skip them). -/
def describeAmendedParts (t : Track) : List String :=
  List.filterMap id
    [ t.artist.bind (fun a =>
        if a ≠ "" ∧ a ≠ "Unknown Artist" then some a else none)
    , t.album.bind (fun al =>
        if al ≠ "" ∧ al ≠ "Unknown Album" then some al else none)
    , t.year.bind (fun y => if y ≠ 0 then some (toString y) else none)
    , t.genre.bind (fun g => if g ≠ "" then some g else none) ]

/-- A track whose artist is present but the empty string: the claim's
qualification (present and different from "Unknown Artist") includes it,
the source's truthiness test skips it. -/
def trackEmptyArtist : Track :=
  { id := "1", title := "T", artist := some "", duration := none
  , uri := "u", fileName := "f", album := none, albumArtist := none
  , genre := none, year := none, trackNumber := none, diskNumber := none }

/-- C9 (counterexample): for a track whose artist is the empty string the
display helper returns the no-metadata placeholder, while the claim's
qualification rules produce the joined one-element list "" — the claim's
description of which parts qualify does not match the code. -/
theorem claim9_counterexample :
    getDetailedTrackInfo trackEmptyArtist = ("T", "No metadata available")
    ∧ describeClaim trackEmptyArtist = ("T", "")
    ∧ getDetailedTrackInfo trackEmptyArtist ≠ describeClaim trackEmptyArtist := by
  refine ⟨by decide, by decide, by decide⟩

/-- C9 (amended): for every Track the display helper returns primary equal
to the title and secondary equal to the fixed-separator join of exactly the
qualifying parts in the order artist, album, year, genre — where artist
qualifies when present, non-empty and different from "Unknown Artist",
album when present, non-empty and different from "Unknown Album", year when
present and nonzero (stringified), genre when present and non-empty — and
the literal "No metadata available" when no part qualifies. -/
theorem claim9_amended : ∀ t : Track,
    getDetailedTrackInfo t =
      ( t.title
      , if describeAmendedParts t = [] then "No metadata available"
        else String.intercalate " â€¢ " (describeAmendedParts t) ) := by
  intro t
  have hparts : formatParts t = describeAmendedParts t := by
    unfold formatParts describeAmendedParts
    cases t.artist <;> cases t.album <;> cases t.year <;> cases t.genre <;>
      simp only [Option.bind, List.filterMap, Option.map, id] <;>
      split_ifs <;> simp_all
  refine Prod.ext rfl ?_
  show formatTrackInfo t = _
  unfold formatTrackInfo
  rw [hparts]
  by_cases h : describeAmendedParts t = []
  · rw [if_pos h, h]
    simp
  · rw [if_neg h, if_pos (List.length_pos.mpr h)]

/-- AudioState from AudioService.ts (lines 25-32). -/
structure AudioState where
  isPlaying : Bool
  isLoading : Bool
  currentTrack : Option Track
  position : Rat
  duration : Rat
  volume : Rat
deriving DecidableEq

/-- The mutable service fields the modelled operations read or write:
the published state, whether this.player is non-null, and whether the
500ms position interval is armed (AudioService.ts lines 34-45). -/
structure Svc where
  state : AudioState
  hasPlayer : Bool
  intervalActive : Bool
deriving DecidableEq

/-- The payload of a PLAYBACK_STATUS_UPDATE event (AudioService.ts lines
118-126); times are in seconds as delivered by the player. -/
structure AudioStatus where
  isLoaded : Bool
  playing : Bool
  currentTime : Rat
  duration : Rat

/-- Where a failing loadTrack threw inside its try block: at
this.player.remove(), at createAudioPlayer, or at addListener
(AudioService.ts lines 108-126).  Only the last point leaves the freshly
created player in this.player. -/
inductive LoadFailPoint where
  | atRemove
  | atCreate
  | atListener
deriving DecidableEq

/-- One event the service can process: a public command (with a flag or
fail point describing whether its interaction with the player throws), a
playback-status event, or a firing of the position interval carrying the
player-reported values. -/
inductive Op where
  | loadTrack (t : Track) (fail : Option LoadFailPoint)
  | play (fail : Bool)
  | pause (fail : Bool)
  | stop (fail : Bool)
  | seek (positionMillis : Rat) (fail : Bool)
  | setVolume (v : Rat) (fail : Bool)
  | statusUpdate (st : AudioStatus)
  | intervalTick (playing : Bool) (currentTime duration : Rat)

/-- One processing step of AudioService.ts: the new service fields together
with the list of state snapshots pushed to the subscribers, in order (every
updateState call notifies all listeners with a copy of the state, lines
71-78).

loadTrack (103-139): sets isLoading and notifies, stops the interval,
replaces the player; on success sets currentTrack, isLoading false and
position 0, notifies and re-arms the interval; on a throw the catch sets
only isLoading false and notifies.  play (141-150) and pause (152-161) talk
to the player and arm or clear the interval but never call updateState.
stop (163-174) pauses and seeks to 0 and only then — outside the player
branch — clears the interval and publishes position 0, isPlaying false; a
throw inside the branch skips that update.  seek (176-185) never calls
updateState.  setVolume (187-196) records the volume only when a player
exists and the assignment did not throw.  The status listener (118-126)
republishes the player-reported flags when the status isLoaded.  The
interval callback (85-93) republishes only while a player exists and
reports playing. -/
def step (svc : Svc) (op : Op) : Svc × List AudioState :=
  match op with
  | .loadTrack t fail =>
    let s1 := { svc.state with isLoading := true }
    match fail with
    | some fp =>
      let s2 := { s1 with isLoading := false }
      let hp :=
        match fp with
        | .atRemove => svc.hasPlayer
        | .atCreate => svc.hasPlayer
        | .atListener => true
      ({ state := s2, hasPlayer := hp, intervalActive := false }, [s1, s2])
    | none =>
      let s2 := { s1 with currentTrack := some t, isLoading := false
                        , position := 0 }
      ({ state := s2, hasPlayer := true, intervalActive := true }, [s1, s2])
  | .play fail =>
    if svc.hasPlayer && !fail then
      ({ state := svc.state, hasPlayer := svc.hasPlayer
       , intervalActive := true }, [])
    else (svc, [])
  | .pause fail =>
    if svc.hasPlayer && !fail then
      ({ state := svc.state, hasPlayer := svc.hasPlayer
       , intervalActive := false }, [])
    else (svc, [])
  | .stop fail =>
    if svc.hasPlayer && fail then (svc, [])
    else
      let s2 := { svc.state with position := 0, isPlaying := false }
      ({ state := s2, hasPlayer := svc.hasPlayer
       , intervalActive := false }, [s2])
  | .seek _ _ => (svc, [])
  | .setVolume v fail =>
    if svc.hasPlayer && !fail then
      let s2 := { svc.state with volume := v }
      ({ state := s2, hasPlayer := svc.hasPlayer
       , intervalActive := svc.intervalActive }, [s2])
    else (svc, [])
  | .statusUpdate st =>
    if svc.hasPlayer && st.isLoaded then
      let s2 := { svc.state with isPlaying := st.playing
                               , position := st.currentTime * 1000
                               , duration := st.duration * 1000 }
      ({ state := s2, hasPlayer := svc.hasPlayer
       , intervalActive := svc.intervalActive }, [s2])
    else (svc, [])
  | .intervalTick playing ct d =>
    if svc.intervalActive && svc.hasPlayer && playing then
      let s2 := { svc.state with position := ct * 1000
                               , duration := d * 1000
                               , isPlaying := playing }
      ({ state := s2, hasPlayer := svc.hasPlayer
       , intervalActive := svc.intervalActive }, [s2])
    else (svc, [])

/-- The snapshot mentions the given track id as its current track. -/
def carriesTrackId (i : String) (s : AudioState) : Bool :=
  match s.currentTrack with
  | some tr => tr.id == i
  | none => false

/-- The initial state of the service (AudioService.ts lines 37-44). -/
def state0 : AudioState :=
  { isPlaying := false, isLoading := false, currentTrack := none
  , position := 0, duration := 0, volume := 1 }

/-- A fresh service: initial state, no player, no interval. -/
def svc0 : Svc :=
  { state := state0, hasPlayer := false, intervalActive := false }

/-- A concrete track used by the witnesses. -/
def track0 : Track :=
  { id := "t0", title := "Old Song", artist := none, duration := none
  , uri := "file0", fileName := "old.mp3", album := none, albumArtist := none
  , genre := none, year := none, trackNumber := none, diskNumber := none }

/-- A second concrete track, distinct from track0. -/
def track1 : Track :=
  { id := "t1", title := "New Song", artist := none, duration := none
  , uri := "file1", fileName := "new.mp3", album := none, albumArtist := none
  , genre := none, year := none, trackNumber := none, diskNumber := none }

/-- A service that already has track0 loaded and a live player. -/
def svcLoaded : Svc :=
  { state := { isPlaying := false, isLoading := false
             , currentTrack := some track0, position := 0, duration := 0
             , volume := 1 }
  , hasPlayer := true, intervalActive := false }

/-- C3 (counterexample): when a track was already loaded and the next
loadTrack fails, the store keeps publishing the previously loaded track —
the final state still has a track set, so it is not the claimed
Empty-equivalent no-track state. -/
theorem claim3_counterexample :
    (step svcLoaded (Op.loadTrack track1 (some LoadFailPoint.atCreate))).1.state.currentTrack
      = some track0
    ∧ some track0 ≠ (none : Option Track) := by
  exact ⟨rfl, by simp⟩

/-- C3 (amended): every loadTrack whose player interaction throws ends with
isLoading false and currentTrack unchanged — in particular the new track is
never published, no emitted snapshot carries anything but the prior current
track, and when no track was loaded before, the state is the
Empty-equivalent no-track state; a previously loaded track, however,
remains set rather than reverting to Empty. -/
theorem claim3_amended : ∀ (svc : Svc) (t : Track) (fp : LoadFailPoint),
    (step svc (Op.loadTrack t (some fp))).1.state.isLoading = false
    ∧ (step svc (Op.loadTrack t (some fp))).1.state.currentTrack
        = svc.state.currentTrack
    ∧ (svc.state.currentTrack = none →
        (step svc (Op.loadTrack t (some fp))).1.state.currentTrack = none)
    ∧ (∀ s ∈ (step svc (Op.loadTrack t (some fp))).2,
        s.currentTrack = svc.state.currentTrack) := by
  intro svc t fp
  refine ⟨rfl, rfl, fun h => by simp [step, h], ?_⟩
  intro s hs
  simp only [step, List.mem_cons, List.not_mem_nil, or_false] at hs
  rcases hs with rfl | rfl <;> rfl

/-- C3 (witness): a failed load on the fresh service ends not loading and
with no track set. -/
theorem claim3_witness :
    (step svc0 (Op.loadTrack track1 (some LoadFailPoint.atCreate))).1.state.isLoading = false
    ∧ (step svc0 (Op.loadTrack track1 (some LoadFailPoint.atCreate))).1.state.currentTrack
        = none :=
  ⟨(claim3_amended svc0 track1 LoadFailPoint.atCreate).1,
   (claim3_amended svc0 track1 LoadFailPoint.atCreate).2.2.1 rfl⟩

/-- C6: for every prior state, a stop whose player interaction does not
throw publishes position 0 and isPlaying false immediately — the new state
carries them, and the single notification stop sends is exactly that
snapshot (the failure case is specified separately by the spec's
CommandFailure taxonomy: state untouched, no notification). -/
theorem claim6_stop : ∀ svc : Svc,
    (step svc (Op.stop false)).1.state.position = 0
    ∧ (step svc (Op.stop false)).1.state.isPlaying = false
    ∧ (step svc (Op.stop false)).2
        = [{ svc.state with position := 0, isPlaying := false }] := by
  intro svc
  simp [step]

/-- C7: a successful loadTrack emits exactly the isLoading snapshot followed
by the completion snapshot; exactly one of the two carries the new track id
with isLoading false, the completion snapshot also has position 0, and —
provided the previously loaded track (if any) has a different id — the
earlier snapshot does not carry the new track. -/
theorem claim7_load_success : ∀ (svc : Svc) (t : Track),
    (step svc (Op.loadTrack t none)).2
      = [{ svc.state with isLoading := true },
         { svc.state with isLoading := false, currentTrack := some t
                        , position := 0 }]
    ∧ (step svc (Op.loadTrack t none)).2.countP
        (fun s => carriesTrackId t.id s && !s.isLoading) = 1
    ∧ carriesTrackId t.id
        { svc.state with isLoading := false, currentTrack := some t
                       , position := 0 } = true
    ∧ ((∀ tr, svc.state.currentTrack = some tr → tr.id ≠ t.id) →
        carriesTrackId t.id { svc.state with isLoading := true } = false) := by
  intro svc t
  refine ⟨rfl, ?_, ?_, ?_⟩
  · simp [step, List.countP_cons, carriesTrackId]
  · simp [carriesTrackId]
  · intro h
    unfold carriesTrackId
    cases hc : svc.state.currentTrack with
    | none => rfl
    | some tr =>
      simp only []
      exact beq_eq_false_iff_ne.mpr (h tr hc)

/-- C7 (witness): loading track1 on the fresh service — whose current track
is absent, so the different-id hypothesis holds — sends exactly one
qualifying notification, and the earlier isLoading snapshot does not carry
the new track. -/
theorem claim7_witness :
    (step svc0 (Op.loadTrack track1 none)).2.countP
        (fun s => carriesTrackId track1.id s && !s.isLoading) = 1
    ∧ carriesTrackId track1.id { svc0.state with isLoading := true } = false :=
  ⟨(claim7_load_success svc0 track1).2.1,
   (claim7_load_success svc0 track1).2.2.2 (fun _ h => nomatch h)⟩

/-- C8: issuing play or pause — whether the player call throws or not, and
in particular when no player is bound because no track was loaded — leaves
the published state unchanged and sends no notification; isPlaying changes
(and a notification goes out) only through the player's own status
callback, whose reported playing flag is copied verbatim when the status is
loaded, and through the interval poll of the player's playing flag. -/
theorem claim8_play_pause_confirmation : ∀ (svc : Svc) (fail : Bool),
    ((step svc (Op.play fail)).1.state = svc.state
      ∧ (step svc (Op.play fail)).2 = [])
    ∧ ((step svc (Op.pause fail)).1.state = svc.state
      ∧ (step svc (Op.pause fail)).2 = [])
    ∧ (∀ st : AudioStatus,
        (step svc (Op.statusUpdate st)).1.state.isPlaying
          = (if svc.hasPlayer && st.isLoaded then st.playing
             else svc.state.isPlaying)
        ∧ (step svc (Op.statusUpdate st)).2
          = (if svc.hasPlayer && st.isLoaded
             then [(step svc (Op.statusUpdate st)).1.state] else []))
    ∧ (∀ (playing : Bool) (ct d : Rat),
        (step svc (Op.intervalTick playing ct d)).1.state.isPlaying
          = (if svc.intervalActive && svc.hasPlayer && playing then playing
             else svc.state.isPlaying)) := by
  intro svc fail
  refine ⟨?_, ?_, ?_, ?_⟩
  · constructor <;> (simp only [step]; split <;> rfl)
  · constructor <;> (simp only [step]; split <;> rfl)
  · intro st
    constructor <;> (simp only [step]; split <;> simp_all)
  · intro playing ct d
    simp only [step]
    split <;> simp_all

/-- Recognizer for the setVolume command. -/
def isSetVolumeOp : Op → Bool
  | .setVolume _ _ => true
  | _ => false

/-- C10: every operation other than setVolume — loads (successful or
failing), play, pause, stop, seek, status events and interval ticks —
leaves the volume field unchanged, and every snapshot such an operation
publishes carries the unchanged volume; moreover a setVolume whose player
interaction throws, or issued while no player is bound, also leaves the
volume unchanged, so volume changes only through a successful setVolume. -/
theorem claim10_volume_frame :
    (∀ (svc : Svc) (op : Op), isSetVolumeOp op = false →
      (step svc op).1.state.volume = svc.state.volume
      ∧ ∀ s ∈ (step svc op).2, s.volume = svc.state.volume)
    ∧ (∀ (svc : Svc) (v : Rat),
        (step svc (Op.setVolume v true)).1.state.volume = svc.state.volume)
    ∧ (∀ (svc : Svc) (v : Rat) (fail : Bool), svc.hasPlayer = false →
        (step svc (Op.setVolume v fail)).1.state.volume = svc.state.volume) := by
  refine ⟨?_, ?_, ?_⟩
  · intro svc op h
    cases op with
    | loadTrack t f =>
      cases f with
      | none =>
        refine ⟨rfl, ?_⟩
        intro s hs
        simp only [step, List.mem_cons, List.not_mem_nil, or_false] at hs
        rcases hs with rfl | rfl <;> rfl
      | some fp =>
        refine ⟨rfl, ?_⟩
        intro s hs
        simp only [step, List.mem_cons, List.not_mem_nil, or_false] at hs
        rcases hs with rfl | rfl <;> rfl
    | play f =>
      refine ⟨by simp only [step]; split <;> rfl, ?_⟩
      intro s hs
      simp only [step] at hs
      split at hs <;> simp at hs
    | pause f =>
      refine ⟨by simp only [step]; split <;> rfl, ?_⟩
      intro s hs
      simp only [step] at hs
      split at hs <;> simp at hs
    | stop f =>
      refine ⟨by simp only [step]; split <;> rfl, ?_⟩
      intro s hs
      simp only [step] at hs
      split at hs
      · simp at hs
      · simp only [List.mem_cons, List.not_mem_nil, or_false] at hs
        rw [hs]
    | seek p f =>
      exact ⟨rfl, by intro s hs; simp [step] at hs⟩
    | setVolume v f => simp [isSetVolumeOp] at h
    | statusUpdate st =>
      refine ⟨by simp only [step]; split <;> rfl, ?_⟩
      intro s hs
      simp only [step] at hs
      split at hs
      · simp only [List.mem_cons, List.not_mem_nil, or_false] at hs
        rw [hs]
      · simp at hs
    | intervalTick playing ct d =>
      refine ⟨by simp only [step]; split <;> rfl, ?_⟩
      intro s hs
      simp only [step] at hs
      split at hs
      · simp only [List.mem_cons, List.not_mem_nil, or_false] at hs
        rw [hs]
      · simp at hs
  · intro svc v
    simp [step]
  · intro svc v fail h
    simp [step, h]

/-- C10 (witness): on the fresh service a stop and a (player-less) setVolume
both leave the volume untouched. -/
theorem claim10_witness :
    (step svc0 (Op.stop false)).1.state.volume = svc0.state.volume
    ∧ (step svc0 (Op.setVolume (1 / 2) false)).1.state.volume
        = svc0.state.volume :=
  ⟨(claim10_volume_frame.1 svc0 (Op.stop false) rfl).1,
   claim10_volume_frame.2.2 svc0 (1 / 2) false rfl⟩

/-- One unsubscribe execution (AudioService.ts lines 66-68): the handle
returned by subscribe reassigns this.listeners to a filter of its current
value that drops the captured listener.  A callback may run several
handles; beh gives, per callback, the set of listeners it unsubscribes,
each applied as the corresponding filter. -/
def unsubStep (beh : Nat → List Nat) (current : List Nat) (caller : Nat) :
    List Nat :=
  current.filter (fun x => !(decide (x ∈ beh caller)))

/-- One notification round (AudioService.ts lines 71-73): notifyListeners
iterates with forEach over the array object this.listeners referred to when
the round began; reassignments performed by unsubscribe handles during the
round replace the field but not the array being iterated, so every entry of
the frozen list is invoked.  Arguments: the frozen list still to visit and
the current value of this.listeners; result: the value of this.listeners
after the round and the callbacks invoked, in order. -/
def notifyRoundAux (beh : Nat → List Nat) :
    List Nat → List Nat → List Nat × List Nat
  | [], current => (current, [])
  | c :: rest, current =>
    let afterC := unsubStep beh current c
    let r := notifyRoundAux beh rest afterC
    (r.1, c :: r.2)

/-- A full notification round starting from listener list ls. -/
def notifyRound (beh : Nat → List Nat) (ls : List Nat) :
    List Nat × List Nat :=
  notifyRoundAux beh ls ls

lemma notifyRoundAux_fst_not_mem (beh : Nat → List Nat) :
    ∀ (frozen current : List Nat) (l : Nat), l ∉ current →
      l ∉ (notifyRoundAux beh frozen current).1 := by
  intro frozen
  induction frozen with
  | nil =>
    intro current l h
    simpa [notifyRoundAux] using h
  | cons c rest ih =>
    intro current l h
    simp only [notifyRoundAux]
    apply ih
    intro hmem
    exact h (List.mem_filter.mp hmem).1

lemma notifyRoundAux_removed (beh : Nat → List Nat) :
    ∀ (frozen current : List Nat) (caller l : Nat),
      caller ∈ frozen → l ∈ beh caller →
      l ∉ (notifyRoundAux beh frozen current).1 := by
  intro frozen
  induction frozen with
  | nil =>
    intro current caller l h
    simp at h
  | cons c rest ih =>
    intro current caller l hc hl
    simp only [notifyRoundAux]
    rcases List.mem_cons.mp hc with rfl | hmem
    · apply notifyRoundAux_fst_not_mem
      intro hin
      simp only [unsubStep] at hin
      have h2 := (List.mem_filter.mp hin).2
      simp at h2
      exact h2 hl
    · exact ih _ caller l hmem hl

lemma notifyRoundAux_snd (beh : Nat → List Nat) :
    ∀ (frozen current : List Nat),
      (notifyRoundAux beh frozen current).2 = frozen := by
  intro frozen
  induction frozen with
  | nil => intro current; rfl
  | cons c rest ih =>
    intro current
    simp [notifyRoundAux, ih]

/-- The unsubscribe pattern of the counterexample: the callback of listener
0 runs the unsubscribe handle of listener 1; no other callback unsubscribes
anyone. -/
def behClaim2 (n : Nat) : List Nat :=
  if n = 0 then [1] else []

/-- C2 (counterexample): in a round over the listener list [0, 1] where
listener 0's callback unsubscribes listener 1, the round still invokes
listener 1 afterwards — forEach iterates the array captured at the start of
the round, so the removal is not effective for the remainder of the round
in which it happened (it is effective for the next round: the resulting
listener list is [0]). -/
theorem claim2_counterexample :
    1 ∈ behClaim2 0
    ∧ (notifyRound behClaim2 [0, 1]).2 = [0, 1]
    ∧ (notifyRound behClaim2 [0, 1]).1 = [0] := by
  decide

/-- C2 (amended): an unsubscribe performed during a notification round takes
effect before the next round begins — the unsubscribed listener is no
longer in the listener list when the round finishes — and a listener absent
from the list at the start of a round is not invoked in that round nor in
the list it leaves behind, so an unsubscribed listener receives no
notification in any later round; it may, however, still be invoked in the
remainder of the round during which it was unsubscribed. -/
theorem claim2_amended :
    (∀ (beh : Nat → List Nat) (ls : List Nat) (caller l : Nat),
      caller ∈ ls → l ∈ beh caller → l ∉ (notifyRound beh ls).1)
    ∧ (∀ (beh : Nat → List Nat) (ls : List Nat) (l : Nat), l ∉ ls →
        l ∉ (notifyRound beh ls).2 ∧ l ∉ (notifyRound beh ls).1) := by
  constructor
  · intro beh ls caller l hc hl
    exact notifyRoundAux_removed beh ls ls caller l hc hl
  · intro beh ls l h
    constructor
    · rw [notifyRound, notifyRoundAux_snd]
      exact h
    · exact notifyRoundAux_fst_not_mem beh ls ls l h

/-- C2 (witness): concretely, after the round in which listener 0
unsubscribed listener 1, listener 1 is out of the listener list, and a
listener absent from the list (listener 1 in the follow-up round over [0])
is invoked in no later round. -/
theorem claim2_witness :
    1 ∉ (notifyRound behClaim2 [0, 1]).1
    ∧ 1 ∉ (notifyRound behClaim2 [0]).2 :=
  ⟨claim2_amended.1 behClaim2 [0, 1] 0 1 (by decide) (by decide),
   (claim2_amended.2 behClaim2 [0] 1 (by decide)).1⟩
